import Mathlib

/-!
Verification of the contained.af (Kinvolk fork) session server.

Shallow embedding of `src/docker.go` and `src/server.go` (the first document in
each file, which the claims cite).  Go strings are Lean `String`s; where a Go
standard-library helper iterates over a string (`strings.Split`,
`strings.Contains`, `strconv.ParseUint`) the helper is embedded as a recursive
function over the string's character list, mirroring the Go semantics for the
ASCII inputs that occur here.  Engine (Docker daemon) interaction is modelled
as a trace of engine calls produced against an engine-behaviour oracle.
-/

namespace Contained

/-! ## Go standard-library helpers used by the port code

`validatePort` in `src/docker.go` calls `nat.NewPort("tcp", portStr)` and
`port.Int()` from `github.com/docker/go-connections/nat`.  Those helpers are
embedded below from their sources: `NewPort` parses via `ParsePortRangeToInt`
(which splits on `-` and reads the first two components with
`strconv.ParseUint(_, 10, 16)`), and `Port.Int` re-parses the text before the
first `/` of the formatted port, yielding 0 when that text is not a plain
number. -/

/-- Net behaviour of Go `strconv.ParseUint(s, 10, 16)` on a character list:
`some v` exactly when the list is a non-empty string of decimal digits whose
value fits in 16 bits (no sign, no underscores with an explicit base); `none`
(an error in Go) otherwise.  On a range error Go returns the clamped maximum
together with the error; every caller embedded here discards the value when
the error is non-nil, so only the error/success distinction is kept. -/
def parseUint16 (l : List Char) : Option Nat :=
  if l = [] then none
  else if l.all Char.isDigit then
    if l.foldl (fun a c => a * 10 + (c.toNat - 48)) 0 < 65536 then
      some (l.foldl (fun a c => a * 10 + (c.toNat - 48)) 0)
    else none
  else none

/-- Go `strings.Split` for a one-character separator: prepend `x` to the first
chunk of an existing split result. -/
def consHead (x : Char) : List (List Char) → List (List Char)
  | [] => [[x]]
  | h :: t => (x :: h) :: t

/-- Go `strings.Split(s, sep)` for a one-character separator `c`: the chunks of
`s` between occurrences of `c`.  Always returns at least one chunk, like the
Go function. -/
def goSplit (c : Char) : List Char → List (List Char)
  | [] => [[]]
  | x :: xs => if x = c then [] :: goSplit c xs else consHead x (goSplit c xs)

/-- `nat.ParsePortRange` from go-connections: a string without `-` must be a
16-bit decimal number `v`, read as the range `(v, v)`; a string containing `-`
is split on `-` and the first two chunks are read as the range bounds (later
chunks are ignored by the Go code, which indexes `parts[0]` and `parts[1]`);
a descending range is an error.  `ParsePortRangeToInt` adds only an
empty-string check and an integer conversion. -/
def parsePortRange (l : List Char) : Option (Nat × Nat) :=
  if l = [] then none
  else if ! l.contains '-' then
    match parseUint16 l with
    | some v => some (v, v)
    | none => none
  else
    match goSplit '-' l with
    | p0 :: p1 :: _ =>
      match parseUint16 p0, parseUint16 p1 with
      | some s, some e => if e < s then none else some (s, e)
      | _, _ => none
    | _ => none

/-- `nat.NewPort(proto, port)`: parse the port text as a range; an equal pair
is formatted `"<start>/<proto>"`, a proper range `"<start>-<end>/<proto>"`
(Go `fmt.Sprintf("%d/%s", ...)`, embedded with `Nat.repr`). -/
def natNewPort (proto : String) (port : String) : Option String :=
  match parsePortRange port.data with
  | none => none
  | some (s, e) =>
    if s = e then some (Nat.repr s ++ "/" ++ proto)
    else some (Nat.repr s ++ "-" ++ Nat.repr e ++ "/" ++ proto)

/-- `nat.Port.Port()`: the text before the first `/` of the formatted port
(`strings.Split(string(p), "/")[0]`). -/
def portPort (p : String) : List Char :=
  (goSplit '/' p.data).headD []

/-- `nat.ParsePort`: empty text is port 0; otherwise a 16-bit decimal parse. -/
def parsePort (raw : List Char) : Option Nat :=
  if raw = [] then some 0 else parseUint16 raw

/-- `nat.Port.Int()`: re-parse the port text, ignoring the error so a
non-numeric text (such as a proper range) yields 0. -/
def portInt (p : String) : Nat :=
  (parsePort (portPort p)).getD 0

/-- `validatePort` from `src/docker.go` lines 46-61: empty means no port; a
non-empty string is parsed by `nat.NewPort("tcp", _)` and the resulting
port's `Int()` value must lie in [36100, 36110], otherwise an error.  The Go
error messages are abbreviated; only the error/success split is load-bearing. -/
def validatePort (portStr : String) : Except String String :=
  if portStr = "" then .ok ""
  else
    match natNewPort "tcp" portStr with
    | none => .error "invalid port"
    | some port =>
      let pi := portInt port
      if pi < 36100 ∨ pi > 36110 then
        .error ("port not in range [36100, 36110], given: " ++ Nat.repr pi)
      else .ok port

/-! ### Decimal-printing facts

`Nat.repr` is the embedding of Go `fmt.Sprintf("%d", n)`.  The lemmas below
establish that its output is a non-empty digit string that re-parses to the
same value, which is what relates `Port.Int()` to the originally parsed
number. -/

/-- The most-significant-first decimal digit characters of `n`. -/
def digitsOf (n : Nat) : List Char :=
  if n < 10 then [Nat.digitChar n]
  else digitsOf (n / 10) ++ [Nat.digitChar (n % 10)]
  termination_by n
  decreasing_by exact Nat.div_lt_self (by omega) (by omega)

theorem digitChar_isDigit {m : Nat} (hm : m < 10) : (Nat.digitChar m).isDigit = true := by
  interval_cases m <;> decide

theorem digitChar_toNat {m : Nat} (hm : m < 10) : (Nat.digitChar m).toNat - 48 = m := by
  interval_cases m <;> decide

theorem digitsOf_ne_nil (n : Nat) : digitsOf n ≠ [] := by
  rw [digitsOf]
  split <;> simp

theorem digitsOf_all_digit (n : Nat) : (digitsOf n).all Char.isDigit = true := by
  induction n using Nat.strong_induction_on with
  | _ n ih =>
    rw [digitsOf]
    split
    · rename_i h
      simp [digitChar_isDigit h]
    · rename_i h
      have h10 : n / 10 < n := Nat.div_lt_self (by omega) (by omega)
      have hmod : n % 10 < 10 := Nat.mod_lt _ (by omega)
      simp [List.all_append, ih _ h10, digitChar_isDigit hmod]

theorem digitsOf_foldl (n : Nat) :
    ∀ a : Nat, (digitsOf n).foldl (fun a c => a * 10 + (c.toNat - 48)) a =
      a * 10 ^ (digitsOf n).length + n := by
  induction n using Nat.strong_induction_on with
  | _ n ih =>
    intro a
    rw [digitsOf]
    split
    · rename_i h
      simp [digitChar_toNat h, Nat.mod_eq_of_lt h]
    · rename_i h
      have h10 : n / 10 < n := Nat.div_lt_self (by omega) (by omega)
      have hmod : n % 10 < 10 := Nat.mod_lt _ (by omega)
      rw [List.foldl_append, ih _ h10 a]
      simp only [List.foldl_cons, List.foldl_nil, List.length_append, List.length_cons,
        List.length_nil, digitChar_toNat hmod, Nat.zero_add, pow_succ]
      rw [← Nat.mul_assoc]
      generalize a * 10 ^ (digitsOf (n / 10)).length = k
      omega

theorem parseUint16_digitsOf {v : Nat} (hv : v < 65536) :
    parseUint16 (digitsOf v) = some v := by
  have h0 := digitsOf_foldl v 0
  simp only [Nat.zero_mul, Nat.zero_add] at h0
  simp [parseUint16, digitsOf_ne_nil, digitsOf_all_digit, h0, hv]

theorem repr_data (n : Nat) : (Nat.repr n).data = digitsOf n := by
  have core : ∀ fuel n ds, n < fuel →
      Nat.toDigitsCore 10 fuel n ds = digitsOf n ++ ds := by
    intro fuel
    induction fuel with
    | zero => intro n ds h; omega
    | succ f ihf =>
      intro n ds h
      rw [Nat.toDigitsCore]
      by_cases hz : n / 10 = 0
      · have hn : n < 10 := by omega
        rw [if_pos hz, digitsOf, if_pos hn, Nat.mod_eq_of_lt hn]
        simp
      · have hn : ¬ n < 10 := by omega
        rw [if_neg hz, ihf _ _ (by omega)]
        conv_rhs => rw [digitsOf, if_neg hn]
        simp
  show (Nat.toDigits 10 n).asString.data = digitsOf n
  rw [Nat.toDigits, core (n + 1) n [] (by omega)]
  simp [List.asString]

theorem digitsOf_not_mem_slash (n : Nat) : '/' ∉ digitsOf n := by
  intro hmem
  have hall := digitsOf_all_digit n
  rw [List.all_eq_true] at hall
  have := hall _ hmem
  simp at this

theorem digitsOf_not_mem_dash (n : Nat) : '-' ∉ digitsOf n := by
  intro hmem
  have hall := digitsOf_all_digit n
  rw [List.all_eq_true] at hall
  have := hall _ hmem
  simp at this

/-! ### goSplit facts -/

theorem goSplit_ne_nil (c : Char) (l : List Char) : goSplit c l ≠ [] := by
  induction l with
  | nil => simp [goSplit]
  | cons x xs ih =>
    rw [goSplit]
    split
    · simp
    · cases h : goSplit c xs with
      | nil => exact absurd h ih
      | cons a b => simp [consHead]

theorem goSplit_append_sep {c : Char} {x : List Char} (hx : c ∉ x) (y : List Char) :
    goSplit c (x ++ c :: y) = x :: goSplit c y := by
  induction x with
  | nil => simp [goSplit]
  | cons a xs ih =>
    have ha : a ≠ c := fun h => hx (h ▸ List.mem_cons_self a xs)
    have hxs : c ∉ xs := fun h => hx (List.mem_cons_of_mem a h)
    rw [List.cons_append, goSplit, if_neg ha, ih hxs, consHead]

/-- Re-parsing a single-port format `"<v>/<proto>"` recovers `v`. -/
theorem portInt_single {v : Nat} (hv : v < 65536) (proto : String) :
    portInt (Nat.repr v ++ "/" ++ proto) = v := by
  have hdata : (Nat.repr v ++ "/" ++ proto).data = digitsOf v ++ '/' :: proto.data := by
    simp [String.data_append, repr_data]
  have hsplit := goSplit_append_sep (digitsOf_not_mem_slash v) proto.data
  have hne := digitsOf_ne_nil v
  unfold portInt portPort
  rw [hdata, hsplit]
  simp only [List.headD_cons]
  unfold parsePort
  rw [if_neg hne, parseUint16_digitsOf hv]
  rfl

/-- Re-parsing a proper-range format `"<s>-<e>/<proto>"` yields 0 (the text
before `/` contains a dash so `ParsePort` errors and `Int()` returns 0). -/
theorem portInt_range (s e : Nat) (proto : String) :
    portInt (Nat.repr s ++ "-" ++ Nat.repr e ++ "/" ++ proto) = 0 := by
  have hdata : (Nat.repr s ++ "-" ++ Nat.repr e ++ "/" ++ proto).data =
      (digitsOf s ++ '-' :: digitsOf e) ++ '/' :: proto.data := by
    simp [String.data_append, repr_data]
  have hnmem : '/' ∉ digitsOf s ++ '-' :: digitsOf e := by
    intro h
    rcases List.mem_append.1 h with h | h
    · exact digitsOf_not_mem_slash s h
    · rcases List.mem_cons.1 h with h | h
      · exact absurd h (by decide)
      · exact digitsOf_not_mem_slash e h
  have hsplit := goSplit_append_sep hnmem proto.data
  have hdash : ('-' : Char) ∈ digitsOf s ++ '-' :: digitsOf e := by simp
  have hnall : ¬ (digitsOf s ++ '-' :: digitsOf e).all Char.isDigit = true := by
    rw [List.all_eq_true]
    intro hall
    have := hall _ hdash
    simp at this
  have hne : digitsOf s ++ '-' :: digitsOf e ≠ [] := by simp
  unfold portInt portPort
  rw [hdata, hsplit]
  simp only [List.headD_cons]
  unfold parsePort
  rw [if_neg hne]
  unfold parseUint16
  rw [if_neg hne, if_neg hnall]
  rfl

theorem parseUint16_lt {l : List Char} {v : Nat} (h : parseUint16 l = some v) :
    v < 65536 := by
  unfold parseUint16 at h
  split at h
  · exact absurd h (by simp)
  · split at h
    · split at h
      · rename_i hlt
        simp only [Option.some.injEq] at h
        omega
      · exact absurd h (by simp)
    · exact absurd h (by simp)

theorem parsePortRange_lt {l : List Char} {s e : Nat}
    (h : parsePortRange l = some (s, e)) : s < 65536 ∧ e < 65536 := by
  unfold parsePortRange at h
  split at h
  · exact absurd h (by simp)
  · split at h
    · split at h
      · rename_i hv
        simp at h
        obtain ⟨h1, h2⟩ := h
        subst h1; subst h2
        exact ⟨parseUint16_lt hv, parseUint16_lt hv⟩
      · exact absurd h (by simp)
    · split at h
      · split at h
        · rename_i h0 h1
          split at h
          · exact absurd h (by simp)
          · simp at h
            obtain ⟨hs, he⟩ := h
            subst hs; subst he
            exact ⟨parseUint16_lt h0, parseUint16_lt h1⟩
        · exact absurd h (by simp)
      · exact absurd h (by simp)

/-- C3 counterexample: the claim asserts that a non-empty string is accepted
exactly when it parses as a TCP port number in [36100, 36110] and that any
non-numeric string yields an error.  The string `"36105-36105"` is not a
numeral (it contains a dash, so it does not parse as a single TCP port
number), yet `validatePort` accepts it: `nat.NewPort` reads it as the
degenerate range 36105-36105 and formats it back as the single port
`"36105/tcp"`, which then passes the range check. -/
theorem validatePort_accepts_degenerate_range :
    validatePort "36105-36105" = .ok "36105/tcp" ∧
    "36105-36105".data.all Char.isDigit = false := by
  exact ⟨rfl, by decide⟩

/-- C3 (amended): `validatePort` returns success with an empty port for the
empty string; a non-empty string succeeds exactly when the port library's
range parse reads it as a pair of equal bounds `(v, v)` with
36100 ≤ v ≤ 36110 — that is, plain decimal numerals in range, and also
degenerate dash spellings such as `"v-v"` whose two bounds are the same
in-range value.  Out-of-range values, proper ranges and other non-numeric
strings yield an error, and the value is never clamped into range. -/
theorem validatePort_of_newPort {s port : String} (hs : s ≠ "")
    (hnp : natNewPort "tcp" s = some port) :
    validatePort s =
      if portInt port < 36100 ∨ portInt port > 36110 then
        .error ("port not in range [36100, 36110], given: " ++ Nat.repr (portInt port))
      else .ok port := by
  unfold validatePort
  rw [if_neg hs, hnp]

theorem validatePort_of_newPort_none {s : String} (hs : s ≠ "")
    (hnp : natNewPort "tcp" s = none) : validatePort s = .error "invalid port" := by
  unfold validatePort
  rw [if_neg hs, hnp]

theorem validatePort_ok_characterization :
    validatePort "" = .ok "" ∧
    ∀ s : String, s ≠ "" →
      ((∃ p, validatePort s = .ok p) ↔
        ∃ v, parsePortRange s.data = some (v, v) ∧ 36100 ≤ v ∧ v ≤ 36110) := by
  refine ⟨rfl, ?_⟩
  intro s hs
  cases hpr : parsePortRange s.data with
  | none =>
    have hnp : natNewPort "tcp" s = none := by simp [natNewPort, hpr]
    rw [validatePort_of_newPort_none hs hnp]
    simp
  | some ve =>
    obtain ⟨v, e⟩ := ve
    have hlt := parsePortRange_lt hpr
    by_cases hve : v = e
    · subst hve
      have hnp : natNewPort "tcp" s = some (Nat.repr v ++ "/" ++ "tcp") := by
        simp [natNewPort, hpr]
      rw [validatePort_of_newPort hs hnp,
        show (portInt (Nat.repr v ++ "/" ++ "tcp")) = v from portInt_single hlt.1 "tcp"]
      by_cases hrange : v < 36100 ∨ v > 36110
      · rw [if_pos hrange]
        constructor
        · rintro ⟨p, hp⟩
          exact absurd hp (by simp)
        · rintro ⟨w, hw, h1, h2⟩
          simp only [Option.some.injEq, Prod.mk.injEq] at hw
          omega
      · rw [if_neg hrange]
        constructor
        · intro _
          exact ⟨v, rfl, by omega, by omega⟩
        · intro _
          exact ⟨Nat.repr v ++ "/" ++ "tcp", rfl⟩
    · have hnp : natNewPort "tcp" s =
          some (Nat.repr v ++ "-" ++ Nat.repr e ++ "/" ++ "tcp") := by
        simp [natNewPort, hpr, hve]
      rw [validatePort_of_newPort hs hnp,
        show portInt (Nat.repr v ++ "-" ++ Nat.repr e ++ "/" ++ "tcp") = 0 from
          portInt_range v e "tcp",
        if_pos (by omega)]
      constructor
      · rintro ⟨p, hp⟩
        exact absurd hp (by simp)
      · rintro ⟨w, hw, h1, h2⟩
        simp only [Option.some.injEq, Prod.mk.injEq] at hw
        omega

/-- C3 witness: the amended characterization applied at the concrete accepted
port `"36105"`. -/
theorem validatePort_ok_characterization_witness :
    ∃ p, validatePort "36105" = .ok p :=
  (validatePort_ok_characterization.2 "36105" (by decide)).mpr
    ⟨36105, by decide, by omega, by omega⟩

/-! ## Profiles and container configuration (`src/docker.go`) -/

/-- `defaultDockerProfile` from `src/docker.go` line 29. -/
def defaultDockerProfile : String := "default-docker"

/-- `weakDockerProfile` from `src/docker.go` line 30. -/
def weakDockerProfile : String := "weak-docker"

/-- The key set of the `dockerProfiles` map (`src/docker.go` lines 33-36). -/
def dockerProfiles : List String := [defaultDockerProfile, weakDockerProfile]

/-- `defaultDockerImage` from `src/main.go` line 27. -/
def defaultDockerImage : String := "alpine:latest"

/-- Stand-in for the contents of `weakSeccompConfig` (`src/seccomp-weak.go`),
an 810-line JSON data table whose contents no claim inspects; only which
profiles own a document is load-bearing. -/
def weakSeccompConfig : String := "weak-seccomp-policy-document"

/-- Modelled from the spec: `defaultSeccompConfig` is the seccomp policy
document of the default profile (the file `seccomp.go` that defines it is not
among the sources; spec section 4.1 fixes that the default profile has a
standard allow-list document).  Its contents are not inspected by any claim. -/
def defaultSeccompConfig : String := "default-seccomp-policy-document"

/-- Modelled from the spec: the `seccompConfigs` map (looked up by
`withSecurityOptions` in `src/docker.go` line 119) is defined in a source file
that is not among the sources.  Spec sections 3 and 4.1 fix its shape: every
name in the allowed-profile set — exactly `default-docker` and `weak-docker` —
resolves to exactly one policy document, and lookup of any other name fails. -/
def seccompConfigs (profile : String) : Option String :=
  if profile = defaultDockerProfile then some defaultSeccompConfig
  else if profile = weakDockerProfile then some weakSeccompConfig
  else none

/-- `containerInfo` from `src/docker.go` lines 38-44.  `selinux` and
`apparmor` are written by `constructContainerInfo` in `src/server.go` (they
are display-only flags; no engine-facing code reads them). -/
structure ContainerInfo where
  dockerImage : String := ""
  port : String := ""
  userns : Bool := false
  containerid : String := ""
  dockerProfile : String := ""
  selinux : Bool := false
  apparmor : Bool := false
deriving Repr, DecidableEq

/-- `container.Config`, restricted to the fields the program writes
(`NewContainerConfig` base plus the three container options). -/
structure ContainerConfig where
  Cmd : List String
  Tty : Bool
  AttachStdin : Bool
  AttachStdout : Bool
  AttachStderr : Bool
  OpenStdin : Bool
  StdinOnce : Bool
  Image : String
  User : String
  ExposedPorts : List String
deriving Repr, DecidableEq

/-- One mount of `container.HostConfig.Mounts`. -/
structure MountEntry where
  mountType : String
  source : String
  target : String
  readOnly : Bool
  consistency : String
deriving Repr, DecidableEq

/-- One binding of `container.HostConfig.PortBindings`. -/
structure PortBinding where
  hostIP : String
  hostPort : String
deriving Repr, DecidableEq

/-- `container.HostConfig`, restricted to the fields the program writes
(`NewContainerHostConfig` base plus the four host options). -/
structure HostConfig where
  NetworkMode : String
  LogConfigType : String
  PidsLimit : Nat
  PortBindings : List (String × List PortBinding)
  SecurityOpt : List String
  Mounts : List MountEntry
  CapAdd : List String
deriving Repr, DecidableEq

/-- The `containerOptions` closures built by `withPort`, `withDockerImage`
and `withDockerUser` (`src/docker.go` lines 63-96), reified so that arbitrary
combinations can be quantified over. -/
inductive ContainerOpt where
  | port (p : String)
  | dockerImage (image : String)
  | dockerUser (profile : String)
deriving Repr, DecidableEq

/-- Application of one container option, mirroring the closure bodies:
`withPort` skips the empty port and otherwise sets the exposed-port set;
`withDockerImage` sets the image, replacing an empty request image with
`defaultDockerImage`; `withDockerUser` sets user `"nobody"` unless the
profile is the weak one, which gets the empty (root) user. -/
def applyContainerOpt : ContainerOpt → ContainerConfig → ContainerConfig
  | .port p, cfg => if p = "" then cfg else { cfg with ExposedPorts := [p] }
  | .dockerImage image, cfg =>
    if image = "" then { cfg with Image := defaultDockerImage }
    else { cfg with Image := image }
  | .dockerUser profile, cfg =>
    { cfg with User := if profile = weakDockerProfile then "" else "nobody" }

/-- `NewContainerConfig` (`src/docker.go` lines 163-179): the fixed
interactive base configuration with each option applied in order. -/
def NewContainerConfig (opts : List ContainerOpt) : ContainerConfig :=
  opts.foldl (fun cfg o => applyContainerOpt o cfg)
    { Cmd := ["sh"], Tty := true, AttachStdin := true, AttachStdout := true,
      AttachStderr := true, OpenStdin := true, StdinOnce := true,
      Image := "", User := "", ExposedPorts := [] }

/-- The `hostOptions` closures built by `withExposedPort`,
`withSecurityOptions`, `withHostVolumes` and `withCapabilities`
(`src/docker.go` lines 98-161), reified. -/
inductive HostOpt where
  | exposedPort (p : String)
  | securityOptions (profile : String)
  | hostVolumes (profile : String)
  | capabilities (profile : String)
deriving Repr, DecidableEq

/-- The read-write bind mount of the shared host directory added by
`withHostVolumes` for the weak profile. -/
def sharedMount : MountEntry :=
  { mountType := "bind", source := "/var/tmp/shared", target := "/var/tmp/shared",
    readOnly := false, consistency := "default" }

/-- Application of one host option (each returns an error in Go, mirrored by
`Except`): `withExposedPort` skips the empty port and otherwise binds it on
`0.0.0.0`; `withSecurityOptions` looks the profile up in `seccompConfigs`,
failing for unknown profiles, and otherwise sets the security options to
`no-new-privileges` plus the JSON-compacted seccomp document;
`withHostVolumes` and `withCapabilities` add the shared mount and the three
extra capabilities for the weak profile only.  `compact` stands for
`encoding/json.Compact`, whose output on the (valid, opaque) policy documents
is not inspected by any claim; every theorem quantifies over it. -/
def applyHostOpt (compact : String → String) :
    HostOpt → HostConfig → Except String HostConfig
  | .exposedPort p, cfg =>
    if p = "" then .ok cfg
    else .ok { cfg with PortBindings := [(p, [{ hostIP := "0.0.0.0", hostPort := p }])] }
  | .securityOptions profile, cfg =>
    match seccompConfigs profile with
    | none => .error ("seccomp config not found for profile: " ++ profile)
    | some doc =>
      .ok { cfg with SecurityOpt := ["no-new-privileges", "seccomp=" ++ compact doc] }
  | .hostVolumes profile, cfg =>
    if profile = weakDockerProfile then .ok { cfg with Mounts := [sharedMount] }
    else .ok cfg
  | .capabilities profile, cfg =>
    if profile = weakDockerProfile then
      .ok { cfg with CapAdd := ["NET_ADMIN", "SYS_PTRACE", "SYS_CHROOT"] }
    else .ok cfg

/-- The fixed base host configuration of `NewContainerHostConfig`
(`src/docker.go` lines 181-190): default network mode, no logging, and a
process-count ceiling of 5. -/
def baseHostConfig : HostConfig :=
  { NetworkMode := "default", LogConfigType := "none", PidsLimit := 5,
    PortBindings := [], SecurityOpt := [], Mounts := [], CapAdd := [] }

/-- The option loop of `NewContainerHostConfig` (`src/docker.go` lines
192-196): apply each option in order, returning the first option error. -/
def applyHostOpts (compact : String → String) :
    List HostOpt → HostConfig → Except String HostConfig
  | [], cfg => .ok cfg
  | o :: rest, cfg =>
    match applyHostOpt compact o cfg with
    | .error e => .error e
    | .ok cfg2 => applyHostOpts compact rest cfg2

/-- `NewContainerHostConfig` (`src/docker.go` lines 181-199): the base host
configuration with each option applied in order, stopping at the first
option error. -/
def NewContainerHostConfig (compact : String → String) (opts : List HostOpt) :
    Except String HostConfig :=
  applyHostOpts compact opts baseHostConfig

/-- The container configuration built by `startContainer`
(`src/docker.go` lines 209-213) for a validated port and request. -/
def startCtrCfg (info : ContainerInfo) (port : String) : ContainerConfig :=
  NewContainerConfig
    [.port port, .dockerImage info.dockerImage, .dockerUser info.dockerProfile]

/-- The host configuration built by `startContainer`
(`src/docker.go` lines 215-220) for a validated port and request. -/
def startCtrHostCfg (compact : String → String) (info : ContainerInfo)
    (port : String) : Except String HostConfig :=
  NewContainerHostConfig compact
    [.exposedPort port, .securityOptions info.dockerProfile,
     .hostVolumes info.dockerProfile, .capabilities info.dockerProfile]

theorem seccompConfigs_weak : seccompConfigs weakDockerProfile = some weakSeccompConfig := rfl

theorem seccompConfigs_default :
    seccompConfigs defaultDockerProfile = some defaultSeccompConfig := rfl

/-- The user of the built container configuration is decided solely by the
profile (the other two options never write `User`). -/
theorem startCtrCfg_User (info : ContainerInfo) (port : String) :
    (startCtrCfg info port).User =
      if info.dockerProfile = weakDockerProfile then "" else "nobody" := rfl

/-- Full evaluation of the host configuration built for a weak-profile
session. -/
theorem startCtrHostCfg_weak (compact : String → String) (info : ContainerInfo)
    (port : String) (hw : info.dockerProfile = weakDockerProfile) :
    startCtrHostCfg compact info port = .ok
      { NetworkMode := "default", LogConfigType := "none", PidsLimit := 5,
        PortBindings :=
          if port = "" then []
          else [(port, [{ hostIP := "0.0.0.0", hostPort := port }])],
        SecurityOpt := ["no-new-privileges", "seccomp=" ++ compact weakSeccompConfig],
        Mounts := [sharedMount],
        CapAdd := ["NET_ADMIN", "SYS_PTRACE", "SYS_CHROOT"] } := by
  unfold startCtrHostCfg NewContainerHostConfig
  rw [hw]
  by_cases hp : port = ""
  · subst hp
    rfl
  · simp only [applyHostOpts, applyHostOpt, if_neg hp]
    rfl

/-- Full evaluation of the host configuration built for a default-profile
session. -/
theorem startCtrHostCfg_default (compact : String → String) (info : ContainerInfo)
    (port : String) (hd : info.dockerProfile = defaultDockerProfile) :
    startCtrHostCfg compact info port = .ok
      { NetworkMode := "default", LogConfigType := "none", PidsLimit := 5,
        PortBindings :=
          if port = "" then []
          else [(port, [{ hostIP := "0.0.0.0", hostPort := port }])],
        SecurityOpt := ["no-new-privileges", "seccomp=" ++ compact defaultSeccompConfig],
        Mounts := [], CapAdd := [] } := by
  unfold startCtrHostCfg NewContainerHostConfig
  rw [hd]
  by_cases hp : port = ""
  · subst hp
    rfl
  · simp only [applyHostOpts, applyHostOpt, if_neg hp]
    rfl

/-- C5: the container and host configurations built by `startContainer` are
pure functions of the request and profile (in this embedding they are Lean
functions, so determinism is definitional), and: the weak profile always
yields the capability-add list NET_ADMIN, SYS_PTRACE, SYS_CHROOT, the
read-write bind mount of `/var/tmp/shared`, and the root (empty) user; the
default profile yields no added capabilities, no mounts, and user
`"nobody"`. -/
theorem profile_policy_configs (compact : String → String) (info : ContainerInfo)
    (port : String) :
    (info.dockerProfile = weakDockerProfile →
      (startCtrCfg info port).User = "" ∧
      ∃ cfg, startCtrHostCfg compact info port = .ok cfg ∧
        cfg.CapAdd = ["NET_ADMIN", "SYS_PTRACE", "SYS_CHROOT"] ∧
        cfg.Mounts = [sharedMount] ∧ sharedMount.readOnly = false ∧
        sharedMount.source = "/var/tmp/shared" ∧ sharedMount.mountType = "bind") ∧
    (info.dockerProfile = defaultDockerProfile →
      (startCtrCfg info port).User = "nobody" ∧
      ∃ cfg, startCtrHostCfg compact info port = .ok cfg ∧
        cfg.CapAdd = [] ∧ cfg.Mounts = []) := by
  constructor
  · intro hw
    refine ⟨?_, _, startCtrHostCfg_weak compact info port hw, rfl, rfl, rfl, rfl, rfl⟩
    rw [startCtrCfg_User, hw, if_pos rfl]
  · intro hd
    refine ⟨?_, _, startCtrHostCfg_default compact info port hd, rfl, rfl⟩
    rw [startCtrCfg_User, hd, if_neg (by decide)]

/-- C5 witness: the policy theorem applied to concrete weak- and
default-profile requests with no port and no image. -/
theorem profile_policy_configs_witness :
    ((startCtrCfg { dockerProfile := weakDockerProfile } "").User = "" ∧
      ∃ cfg, startCtrHostCfg (fun s => s) { dockerProfile := weakDockerProfile } "" = .ok cfg ∧
        cfg.CapAdd = ["NET_ADMIN", "SYS_PTRACE", "SYS_CHROOT"] ∧
        cfg.Mounts = [sharedMount] ∧ sharedMount.readOnly = false ∧
        sharedMount.source = "/var/tmp/shared" ∧ sharedMount.mountType = "bind") ∧
    ((startCtrCfg { dockerProfile := defaultDockerProfile } "").User = "nobody" ∧
      ∃ cfg, startCtrHostCfg (fun s => s) { dockerProfile := defaultDockerProfile } "" = .ok cfg ∧
        cfg.CapAdd = [] ∧ cfg.Mounts = []) :=
  ⟨(profile_policy_configs (fun s => s) { dockerProfile := weakDockerProfile } "").1 rfl,
   (profile_policy_configs (fun s => s) { dockerProfile := defaultDockerProfile } "").2 rfl⟩

theorem applyHostOpt_preserves_base {compact : String → String} {o : HostOpt}
    {cfg cfg2 : HostConfig} (h : applyHostOpt compact o cfg = .ok cfg2) :
    cfg2.PidsLimit = cfg.PidsLimit ∧ cfg2.NetworkMode = cfg.NetworkMode := by
  cases o <;> simp only [applyHostOpt] at h <;> split at h <;> cases h <;> exact ⟨rfl, rfl⟩

theorem applyHostOpts_preserves_base {compact : String → String} :
    ∀ {opts : List HostOpt} {cfg cfg2 : HostConfig},
      applyHostOpts compact opts cfg = .ok cfg2 →
      cfg2.PidsLimit = cfg.PidsLimit ∧ cfg2.NetworkMode = cfg.NetworkMode := by
  intro opts
  induction opts with
  | nil =>
    intro cfg cfg2 h
    simp only [applyHostOpts] at h
    cases h
    exact ⟨rfl, rfl⟩
  | cons o rest ih =>
    intro cfg cfg2 h
    simp only [applyHostOpts] at h
    split at h
    · exact absurd h (by simp)
    · rename_i mid hmid
      obtain ⟨h1, h2⟩ := applyHostOpt_preserves_base hmid
      obtain ⟨h3, h4⟩ := ih h
      exact ⟨h3.trans h1, h4.trans h2⟩

/-- C6: for every combination of the repository's host-option constructors,
a successfully built host configuration keeps the base configuration's
process-count limit of exactly 5 and network mode `"default"`: no option
function writes either field. -/
theorem hostConfig_base_invariants (compact : String → String) (opts : List HostOpt)
    (cfg : HostConfig) (h : NewContainerHostConfig compact opts = .ok cfg) :
    cfg.PidsLimit = 5 ∧ cfg.NetworkMode = "default" := by
  unfold NewContainerHostConfig at h
  obtain ⟨h1, h2⟩ := applyHostOpts_preserves_base h
  exact ⟨h1, h2⟩

/-- C6 witness: the invariant theorem applied to the concrete option
combination `startContainer` uses for a weak-profile request with port
`"36105/tcp"`. -/
theorem hostConfig_base_invariants_witness :
    ∃ cfg, NewContainerHostConfig (fun s => s)
        [.exposedPort "36105/tcp", .securityOptions weakDockerProfile,
         .hostVolumes weakDockerProfile, .capabilities weakDockerProfile] = .ok cfg ∧
      cfg.PidsLimit = 5 ∧ cfg.NetworkMode = "default" := by
  have h : NewContainerHostConfig (fun s => s)
      [.exposedPort "36105/tcp", .securityOptions weakDockerProfile,
       .hostVolumes weakDockerProfile, .capabilities weakDockerProfile] = .ok
        { NetworkMode := "default", LogConfigType := "none", PidsLimit := 5,
          PortBindings := [("36105/tcp", [{ hostIP := "0.0.0.0", hostPort := "36105/tcp" }])],
          SecurityOpt := ["no-new-privileges", "seccomp=weak-seccomp-policy-document"],
          Mounts := [sharedMount],
          CapAdd := ["NET_ADMIN", "SYS_PTRACE", "SYS_CHROOT"] } := rfl
  exact ⟨_, h, hostConfig_base_invariants (fun s => s) _ _ h⟩

/-- C10: for every profile in the registry, every compaction function and
every (validated) port, the host configuration built for a session succeeds
and its security-options list contains `"no-new-privileges"`; no request
parameter can remove it. -/
theorem no_new_privileges_always (compact : String → String) (info : ContainerInfo)
    (port : String) (hmem : info.dockerProfile ∈ dockerProfiles) :
    ∃ cfg, startCtrHostCfg compact info port = .ok cfg ∧
      "no-new-privileges" ∈ cfg.SecurityOpt := by
  have hmem2 : info.dockerProfile = defaultDockerProfile ∨
      info.dockerProfile = weakDockerProfile := by
    simpa [dockerProfiles] using hmem
  rcases hmem2 with h | h
  · exact ⟨_, startCtrHostCfg_default compact info port h, by simp⟩
  · exact ⟨_, startCtrHostCfg_weak compact info port h, by simp⟩

/-- C10 witness: the invariant applied to a concrete default-profile session
with no exposed port. -/
theorem no_new_privileges_always_witness :
    ∃ cfg, startCtrHostCfg (fun s => s) { dockerProfile := defaultDockerProfile } "" = .ok cfg ∧
      "no-new-privileges" ∈ cfg.SecurityOpt :=
  no_new_privileges_always (fun s => s) { dockerProfile := defaultDockerProfile } ""
    (by simp [dockerProfiles])

/-! ## Request parsing and session establishment (`src/server.go`) -/

/-- The query parameters `profilesHandler` reads (first value of each key;
`none` models an absent key, matching the `len(...) > 0` guards). -/
structure Query where
  port : Option String := none
  image : Option String := none
  profile : Option String := none
  userns : Option String := none
  selinux : Option String := none
  apparmor : Option String := none
deriving Repr, DecidableEq

/-- The `userns`/`selinux`/`apparmor` blocks of `constructContainerInfo`
(`src/server.go` lines 88-113): `userns` is enabled only by the exact value
`"enabled"`; `selinux`/`apparmor`, when present, default to enabled unless
the value is `"disabled"`. -/
def applyEnableFlags (q : Query) (c : ContainerInfo) : ContainerInfo :=
  let c := match q.userns with
    | some v => if v = "enabled" then { c with userns := true } else c
    | none => c
  let c := match q.selinux with
    | some v => if v = "disabled" then { c with selinux := false } else { c with selinux := true }
    | none => c
  match q.apparmor with
  | some v => if v = "disabled" then { c with apparmor := false } else { c with apparmor := true }
  | none => c

/-- `constructContainerInfo` (`src/server.go` lines 70-116): copy the port and
image parameters, then validate the profile parameter against the registry —
rejection happens before the remaining flags are read; an absent profile
parameter leaves the zero-value (empty) profile name. -/
def constructContainerInfo (q : Query) : Except String ContainerInfo :=
  let c : ContainerInfo := {}
  let c := match q.port with | some v => { c with port := v } | none => c
  let c := match q.image with | some v => { c with dockerImage := v } | none => c
  match q.profile with
  | some v =>
    if dockerProfiles.contains v then .ok (applyEnableFlags q { c with dockerProfile := v })
    else .error ("Docker profile \"" ++ v ++ "\" is invalid.")
  | none => .ok (applyEnableFlags q c)

/-- One call to the container engine, tagged with the endpoint that receives
it (`userns = true` is the user-namespaced daemon picked by `handler.client`,
`src/server.go` lines 40-45). -/
inductive EngineCall where
  | imageInspect (userns : Bool) (image : String)
  | imagePull (userns : Bool) (image : String)
  | containerCreate (userns : Bool) (cfg : ContainerConfig) (hostCfg : HostConfig)
  | attachDial (userns : Bool) (cid : String)
  | containerStart (userns : Bool) (cid : String)
  | containerRemove (userns : Bool) (cid : String)
  | containerResize (userns : Bool) (cid : String) (height width : Nat)
deriving Repr, DecidableEq

def isRemoveCall : EngineCall → Bool
  | .containerRemove _ _ => true
  | _ => false

def isCreateCall : EngineCall → Bool
  | .containerCreate _ _ _ => true
  | _ => false

def isResizeCall : EngineCall → Bool
  | .containerResize _ _ _ _ => true
  | _ => false

/-- Outcome of `ImageInspectWithRaw` as classified by `imageExists`
(`src/docker.go` lines 311-323): present, not-found, or another error. -/
inductive InspectResult | found | notFound | errored
deriving Repr, DecidableEq

/-- Oracle fixing the engine's response to each establishment call. -/
structure EngineBehavior where
  inspect : InspectResult
  pullOk : Bool
  create : Except String String
  dialOk : Bool
  startOk : Bool
deriving Repr

/-- `pullImage` (`src/docker.go` lines 289-308): inspect, and pull only when
the image is absent; returns the calls made and an error message on failure. -/
def pullImageM (eng : EngineBehavior) (userns : Bool) (image : String) :
    List EngineCall × Option String :=
  match eng.inspect with
  | .found => ([.imageInspect userns image], none)
  | .errored => ([.imageInspect userns image], some "image inspect error")
  | .notFound =>
    ([.imageInspect userns image, .imagePull userns image],
     if eng.pullOk then none else some "image pull error")

/-- The create/attach/start tail of `startContainer` (`src/docker.go` lines
233-268): create (recording the engine-assigned container id in the session
info), then dial the attach websocket, then start.  A dial failure returns
before the start call; a start failure returns the error (the handler treats
it as fatal even though the Go code also hands back the attach connection). -/
def createPhase (eng : EngineBehavior) (info : ContainerInfo)
    (ctrCfg : ContainerConfig) (ctrHostCfg : HostConfig) :
    List EngineCall × ContainerInfo × Except String Unit :=
  let ccall := EngineCall.containerCreate info.userns ctrCfg ctrHostCfg
  match eng.create with
  | .error e => ([ccall], info, .error e)
  | .ok cid =>
    let info2 := { info with containerid := cid }
    let dcall := EngineCall.attachDial info2.userns cid
    if eng.dialOk then
      let scall := EngineCall.containerStart info2.userns cid
      if eng.startOk then ([ccall, dcall, scall], info2, .ok ())
      else ([ccall, dcall, scall], info2, .error "container start error")
    else ([ccall, dcall], info2, .error ("dialing " ++ cid ++ " failed"))

/-- The pull-then-create tail of `startContainer`: pull if needed (a pull or
inspect failure is wrapped and fatal), then create/attach/start.  `info2` is
the session info whose image was already overwritten with the resolved
configuration image (`src/docker.go` line 226).  Go binds the intermediate
results once; the pure recomputation here is identical. -/
def startPhase (eng : EngineBehavior) (info2 : ContainerInfo)
    (ctrCfg : ContainerConfig) (ctrHostCfg : HostConfig) :
    List EngineCall × ContainerInfo × Except String Unit :=
  match (pullImageM eng info2.userns info2.dockerImage).2 with
  | some e =>
    ((pullImageM eng info2.userns info2.dockerImage).1, info2,
     .error ("pulling " ++ ctrCfg.Image ++ " failed: " ++ e))
  | none =>
    ((pullImageM eng info2.userns info2.dockerImage).1 ++
       (createPhase eng info2 ctrCfg ctrHostCfg).1,
     (createPhase eng info2 ctrCfg ctrHostCfg).2.1,
     (createPhase eng info2 ctrCfg ctrHostCfg).2.2)

/-- `startContainer` (`src/docker.go` lines 203-269): validate the port,
build both configurations (host-config construction can fail, ending the
attempt before any engine call), overwrite the session's image with the
resolved one, pull if needed, then create/attach/start. -/
def startContainerM (compact : String → String) (eng : EngineBehavior)
    (info : ContainerInfo) : List EngineCall × ContainerInfo × Except String Unit :=
  match validatePort info.port with
  | .error e => ([], info, .error e)
  | .ok port =>
    match startCtrHostCfg compact info port with
    | .error e => ([], info, .error ("creating container host config: " ++ e))
    | .ok ctrHostCfg =>
      startPhase eng { info with dockerImage := (startCtrCfg info port).Image }
        (startCtrCfg info port) ctrHostCfg

/-- The wire message (`src/server.go` lines 53-58); the Go field names are
Type/Data/Height/Width. -/
structure Message where
  msgType : String
  data : String
  height : Nat := 0
  width : Nat := 0
deriving Repr, DecidableEq

/-- The diagnostic frame `profilesHandler` writes on a failure: a
stdout-tagged message with zero height/width. -/
def mkDiag (s : String) : Message := { msgType := "stdout", data := s }

/-- The establishment phase of `profilesHandler` (`src/server.go` lines
125-152), after the websocket upgrade succeeded: parse the request; on a
parse failure write one diagnostic and stop; otherwise run `startContainer`;
on its failure write one diagnostic and stop; otherwise the session is live.
Result: engine calls made, messages written to the browser channel, and the
live session's info (`none` when no session reached steady state). -/
def sessionEstablish (compact : String → String) (eng : EngineBehavior) (q : Query) :
    List EngineCall × List Message × Option ContainerInfo :=
  match constructContainerInfo q with
  | .error e => ([], [mkDiag ("generating container info failed: " ++ e)], none)
  | .ok info =>
    match startContainerM compact eng info with
    | (calls, _, .error e) => (calls, [mkDiag ("starting container failed: " ++ e)], none)
    | (calls, info2, .ok _) => (calls, [], some info2)

/-- Engine oracle that accepts everything and assigns container id
`"cid-1"`. -/
def engHappy : EngineBehavior :=
  { inspect := .found, pullOk := true, create := .ok "cid-1", dialOk := true, startOk := true }

/-- Engine oracle whose attach dial fails after a successful create. -/
def engDialFail : EngineBehavior :=
  { inspect := .found, pullOk := true, create := .ok "cid-1", dialOk := false, startOk := true }

/-- Request with an unknown profile name. -/
def qBogus : Query := { profile := some "bogus" }

/-- Request selecting the default profile explicitly and nothing else. -/
def qDefault : Query := { profile := some defaultDockerProfile }

/-- Request omitting every parameter, in particular the profile. -/
def qOmitProfile : Query := {}

theorem sessionEstablish_constructErr {compact : String → String} {eng : EngineBehavior}
    {q : Query} {e : String} (he : constructContainerInfo q = .error e) :
    sessionEstablish compact eng q =
      ([], [mkDiag ("generating container info failed: " ++ e)], none) := by
  unfold sessionEstablish
  rw [he]

theorem sessionEstablish_constructOk {compact : String → String} {eng : EngineBehavior}
    {q : Query} {info : ContainerInfo} (hok : constructContainerInfo q = .ok info) :
    sessionEstablish compact eng q =
      match startContainerM compact eng info with
      | (calls, _, .error e) => (calls, [mkDiag ("starting container failed: " ++ e)], none)
      | (calls, info2, .ok _) => (calls, [], some info2) := by
  unfold sessionEstablish
  rw [hok]

theorem startContainerM_portErr {compact : String → String} {eng : EngineBehavior}
    {info : ContainerInfo} {e : String} (hv : validatePort info.port = .error e) :
    startContainerM compact eng info = ([], info, .error e) := by
  unfold startContainerM
  rw [hv]

theorem startContainerM_cfgErr {compact : String → String} {eng : EngineBehavior}
    {info : ContainerInfo} {port e : String} (hv : validatePort info.port = .ok port)
    (hcfg : startCtrHostCfg compact info port = .error e) :
    startContainerM compact eng info =
      ([], info, .error ("creating container host config: " ++ e)) := by
  unfold startContainerM
  simp only [hv, hcfg]

theorem startContainerM_cfgOk {compact : String → String} {eng : EngineBehavior}
    {info : ContainerInfo} {port : String} {ctrHostCfg : HostConfig}
    (hv : validatePort info.port = .ok port)
    (hcfg : startCtrHostCfg compact info port = .ok ctrHostCfg) :
    startContainerM compact eng info =
      startPhase eng { info with dockerImage := (startCtrCfg info port).Image }
        (startCtrCfg info port) ctrHostCfg := by
  unfold startContainerM
  simp only [hv, hcfg]

/-- C2: for every request whose parameters fail validation (unknown profile
name, or a port rejected by `validatePort` — out-of-range or malformed), no
engine call at all is made (in particular no pull/create/start/attach/remove,
so no container is ever created) and exactly one stdout-tagged diagnostic
message is written to the browser channel before the session attempt ends
with no live session. -/
theorem validation_failure_isolated (compact : String → String) (eng : EngineBehavior)
    (q : Query)
    (h : (∃ e, constructContainerInfo q = .error e) ∨
         (∃ info e, constructContainerInfo q = .ok info ∧ validatePort info.port = .error e)) :
    (sessionEstablish compact eng q).1 = [] ∧
    (∃ d, (sessionEstablish compact eng q).2.1 = [mkDiag d]) ∧
    (sessionEstablish compact eng q).2.2 = none := by
  rcases h with ⟨e, he⟩ | ⟨info, e, hok, hport⟩
  · rw [sessionEstablish_constructErr he]
    exact ⟨rfl, ⟨_, rfl⟩, rfl⟩
  · rw [sessionEstablish_constructOk hok, startContainerM_portErr hport]
    exact ⟨rfl, ⟨_, rfl⟩, rfl⟩

/-- C2 witness: the isolation theorem applied to the concrete request
`profile=bogus` against the all-accepting engine. -/
theorem validation_failure_isolated_witness :
    (sessionEstablish (fun s => s) engHappy qBogus).1 = [] ∧
    (∃ d, (sessionEstablish (fun s => s) engHappy qBogus).2.1 = [mkDiag d]) ∧
    (sessionEstablish (fun s => s) engHappy qBogus).2.2 = none :=
  validation_failure_isolated (fun s => s) engHappy qBogus
    (Or.inl ⟨"Docker profile \"bogus\" is invalid.", rfl⟩)

theorem pullImageM_no_remove (eng : EngineBehavior) (userns : Bool) (image : String) :
    (pullImageM eng userns image).1.filter isRemoveCall = [] := by
  unfold pullImageM
  cases eng.inspect <;> simp [isRemoveCall]

theorem createPhase_no_remove (eng : EngineBehavior) (info : ContainerInfo)
    (ctrCfg : ContainerConfig) (ctrHostCfg : HostConfig) :
    (createPhase eng info ctrCfg ctrHostCfg).1.filter isRemoveCall = [] := by
  unfold createPhase
  cases eng.create <;> simp [isRemoveCall]
  split
  · split <;> simp [isRemoveCall]
  · simp [isRemoveCall]

theorem startPhase_no_remove (eng : EngineBehavior) (info2 : ContainerInfo)
    (ctrCfg : ContainerConfig) (ctrHostCfg : HostConfig) :
    (startPhase eng info2 ctrCfg ctrHostCfg).1.filter isRemoveCall = [] := by
  unfold startPhase
  split
  · exact pullImageM_no_remove eng _ _
  · rw [List.filter_append, pullImageM_no_remove eng _ _, createPhase_no_remove eng _ _ _]
    rfl

theorem startContainerM_no_remove (compact : String → String) (eng : EngineBehavior)
    (info : ContainerInfo) :
    (startContainerM compact eng info).1.filter isRemoveCall = [] := by
  unfold startContainerM
  split
  · rfl
  · split
    · rfl
    · exact startPhase_no_remove eng _ _ _

theorem createPhase_dialFail {eng : EngineBehavior} (hdial : eng.dialOk = false)
    (info : ContainerInfo) (ctrCfg : ContainerConfig) (ctrHostCfg : HostConfig) :
    ∃ e, (createPhase eng info ctrCfg ctrHostCfg).2.2 = .error e := by
  unfold createPhase
  cases eng.create with
  | error e => exact ⟨e, rfl⟩
  | ok cid =>
    simp only [hdial]
    exact ⟨_, rfl⟩

theorem startPhase_dialFail {eng : EngineBehavior} (hdial : eng.dialOk = false)
    (info2 : ContainerInfo) (ctrCfg : ContainerConfig) (ctrHostCfg : HostConfig) :
    ∃ e, (startPhase eng info2 ctrCfg ctrHostCfg).2.2 = .error e := by
  unfold startPhase
  split
  · exact ⟨_, rfl⟩
  · exact createPhase_dialFail hdial _ _ _

theorem startContainerM_dialFail {eng : EngineBehavior} (hdial : eng.dialOk = false)
    (compact : String → String) (info : ContainerInfo) :
    ∃ e, (startContainerM compact eng info).2.2 = .error e := by
  unfold startContainerM
  split
  · exact ⟨_, rfl⟩
  · split
    · exact ⟨_, rfl⟩
    · exact startPhase_dialFail hdial _ _ _

/-- C4 counterexample: with an engine whose create succeeds (container id
`"cid-1"`) and whose attach dial then fails, the endpoint's establishment
trace contains the create call but no remove call, and the session ends —
the claim that remove is still invoked with the id obtained from create is
false; the created container is leaked. -/
theorem attach_failure_no_remove_cx :
    (sessionEstablish (fun s => s) engDialFail qDefault).1.any isCreateCall = true ∧
    (sessionEstablish (fun s => s) engDialFail qDefault).1.any isRemoveCall = false ∧
    (sessionEstablish (fun s => s) engDialFail qDefault).2.2 = none :=
  ⟨rfl, rfl, rfl⟩

/-- C4 (amended): the session endpoint never invokes the engine's remove verb
during establishment; in particular, when create succeeds but the attach
dial fails, the endpoint writes one diagnostic to the browser and returns
without removing the container created, which is therefore leaked. -/
theorem attach_failure_leaks_container (compact : String → String)
    (eng : EngineBehavior) (q : Query) (hdial : eng.dialOk = false) :
    (sessionEstablish compact eng q).1.filter isRemoveCall = [] ∧
    (∃ d, (sessionEstablish compact eng q).2.1 = [mkDiag d]) ∧
    (sessionEstablish compact eng q).2.2 = none := by
  unfold sessionEstablish
  split
  · exact ⟨rfl, ⟨_, rfl⟩, rfl⟩
  · rename_i info hinfo
    split
    · rename_i calls info2 e hstart
      have hnr := startContainerM_no_remove compact eng info
      rw [hstart] at hnr
      exact ⟨hnr, ⟨_, rfl⟩, rfl⟩
    · rename_i calls info2 u hstart
      obtain ⟨e, he⟩ := startContainerM_dialFail hdial compact info
      rw [hstart] at he
      exact absurd he (by simp)

/-- C4 amended-claim witness: the leak theorem applied to the concrete
request `profile=default-docker` and the create-ok/dial-fail engine. -/
theorem attach_failure_leaks_container_witness :
    (sessionEstablish (fun s => s) engDialFail qDefault).1.filter isRemoveCall = [] ∧
    (∃ d, (sessionEstablish (fun s => s) engDialFail qDefault).2.1 = [mkDiag d]) ∧
    (sessionEstablish (fun s => s) engDialFail qDefault).2.2 = none :=
  attach_failure_leaks_container (fun s => s) engDialFail qDefault rfl

theorem applyEnableFlags_dockerProfile (q : Query) (c : ContainerInfo) :
    (applyEnableFlags q c).dockerProfile = c.dockerProfile := by
  obtain ⟨qp, qi, qpr, qu, qs, qa⟩ := q
  unfold applyEnableFlags
  cases qu <;> cases qs <;> cases qa <;> dsimp only <;> (repeat' split) <;> rfl

theorem constructContainerInfo_profile_none {q : Query} (hq : q.profile = none) :
    ∃ info, constructContainerInfo q = .ok info ∧ info.dockerProfile = "" := by
  unfold constructContainerInfo
  rw [hq]
  refine ⟨_, rfl, ?_⟩
  rw [applyEnableFlags_dockerProfile]
  obtain ⟨qp, qi, qpr, qu, qs, qa⟩ := q
  cases qp <;> cases qi <;> rfl

/-- C8 counterexample: against the all-accepting engine, the request that
omits the profile parameter makes no engine call and yields no session, while
the explicit `profile=default-docker` request yields a started session —
omitting the profile is not processed as the default profile. -/
theorem omitted_profile_not_default_cx :
    (sessionEstablish (fun s => s) engHappy qOmitProfile).2.2 = none ∧
    (sessionEstablish (fun s => s) engHappy qOmitProfile).1 = [] ∧
    (sessionEstablish (fun s => s) engHappy qDefault).2.2 =
      some { dockerImage := defaultDockerImage, dockerProfile := defaultDockerProfile,
             containerid := "cid-1" } :=
  ⟨rfl, rfl, rfl⟩

/-- C8 (amended): a request whose query omits the profile parameter keeps the
zero-value (empty) profile name, which is not in the registry; the session
attempt then fails while building the host configuration (no seccomp
document for the empty name) before any engine call, writing exactly one
stdout diagnostic and creating no session — it is not processed as the
default profile. -/
theorem omitted_profile_fails (compact : String → String) (eng : EngineBehavior)
    (q : Query) (hq : q.profile = none) :
    (sessionEstablish compact eng q).1 = [] ∧
    (∃ d, (sessionEstablish compact eng q).2.1 = [mkDiag d]) ∧
    (sessionEstablish compact eng q).2.2 = none := by
  obtain ⟨info, hinfo, hprof⟩ := constructContainerInfo_profile_none hq
  have hse : ∃ d, sessionEstablish compact eng q = ([], [mkDiag d], none) := by
    cases hv : validatePort info.port with
    | error e =>
      exact ⟨_, by rw [sessionEstablish_constructOk hinfo, startContainerM_portErr hv]⟩
    | ok port =>
      have hcfg : ∃ e, startCtrHostCfg compact info port = .error e := by
        unfold startCtrHostCfg NewContainerHostConfig
        rw [hprof]
        by_cases hp : port = ""
        · subst hp
          exact ⟨_, rfl⟩
        · simp only [applyHostOpts, applyHostOpt, if_neg hp]
          exact ⟨_, rfl⟩
      obtain ⟨e, he⟩ := hcfg
      exact ⟨_, by rw [sessionEstablish_constructOk hinfo, startContainerM_cfgErr hv he]⟩
  obtain ⟨d, hse⟩ := hse
  rw [hse]
  exact ⟨rfl, ⟨_, rfl⟩, rfl⟩

/-- C8 amended-claim witness: the theorem applied to the concrete
all-parameters-absent request against the all-accepting engine. -/
theorem omitted_profile_fails_witness :
    (sessionEstablish (fun s => s) engHappy qOmitProfile).1 = [] ∧
    (∃ d, (sessionEstablish (fun s => s) engHappy qOmitProfile).2.1 = [mkDiag d]) ∧
    (sessionEstablish (fun s => s) engHappy qOmitProfile).2.2 = none :=
  omitted_profile_fails (fun s => s) engHappy qOmitProfile rfl

/-! ## The browser read loop (`src/server.go` lines 205-255)

The loop reads frames from the browser websocket.  A close error triggers
container removal and exits the loop (`break` directly inside the `for`);
other read errors `continue`.  A `stdin` frame with non-empty payload is
written to the container websocket; if that write fails with `ErrCloseSent`
the code removes the container and executes `break` — but that `break` is
inside the `switch` statement, so it exits the switch, not the loop, and
reading continues.  A `resize` frame calls `ContainerResize` on `h.dcli`
(the standard daemon — not `h.client(userns)` used by every other engine
call) with the frame's height and width; a resize error is only logged.
After the loop exits, line 252 calls `removeContainer` once more,
unconditionally.  The loop is modelled over a finite trace of read results;
an exhausted trace stands for a loop still blocked in its next read (the
post-loop removal then has not happened). -/

/-- Result of one `WriteMessage` to the container websocket. -/
inductive WriteRes | ok | closeSent | otherErr
deriving Repr, DecidableEq

/-- One read result delivered to the browser read loop: a close error, some
other read error, or a decoded frame. -/
inductive BrowserRead where
  | closeErr
  | readErr
  | frame (m : Message)
deriving Repr, DecidableEq

/-- Observable effects of the browser read loop: engine calls made and the
payloads of the write attempts on the container channel. -/
structure LoopOut where
  calls : List EngineCall
  ctrWrites : List String
deriving Repr, DecidableEq

/-- The body of the browser read loop; `k` counts container-channel writes so
`wres` can assign each write attempt its outcome. -/
def browserLoopGo (info : ContainerInfo) (wres : Nat → WriteRes) :
    List BrowserRead → Nat → List EngineCall → List String → LoopOut × Bool
  | [], _, acc, ws => (⟨acc, ws⟩, false)
  | r :: rest, k, acc, ws =>
    match r with
    | .closeErr =>
      (⟨acc ++ [.containerRemove info.userns info.containerid], ws⟩, true)
    | .readErr => browserLoopGo info wres rest k acc ws
    | .frame m =>
      if m.msgType = "stdin" then
        if m.data = "" then browserLoopGo info wres rest k acc ws
        else
          match wres k with
          | .ok => browserLoopGo info wres rest (k + 1) acc (ws ++ [m.data])
          | .closeSent =>
            browserLoopGo info wres rest (k + 1)
              (acc ++ [.containerRemove info.userns info.containerid]) (ws ++ [m.data])
          | .otherErr => browserLoopGo info wres rest (k + 1) acc (ws ++ [m.data])
      else if m.msgType = "resize" then
        browserLoopGo info wres rest k
          (acc ++ [.containerResize false info.containerid m.height m.width]) ws
      else browserLoopGo info wres rest k acc ws

/-- The browser read loop followed by the unconditional removal of
`src/server.go` line 252, which runs when (and only when) the loop exited. -/
def browserLoop (info : ContainerInfo) (wres : Nat → WriteRes)
    (reads : List BrowserRead) : LoopOut × Bool :=
  match browserLoopGo info wres reads 0 [] [] with
  | (out, true) =>
    (⟨out.calls ++ [.containerRemove info.userns info.containerid], out.ctrWrites⟩, true)
  | (out, false) => (out, false)

/-- A live session on the standard endpoint, as left by establishment with
the default profile. -/
def sessionInfo1 : ContainerInfo :=
  { dockerImage := defaultDockerImage, dockerProfile := defaultDockerProfile,
    containerid := "cid-1" }

/-- A live session on the user-namespaced endpoint. -/
def sessionInfoUserns : ContainerInfo :=
  { dockerImage := defaultDockerImage, dockerProfile := defaultDockerProfile,
    containerid := "cid-2", userns := true }

/-- Container-channel writes all succeed. -/
def wresAllOk : Nat → WriteRes := fun _ => .ok

/-- The container channel is closing: every write fails with `ErrCloseSent`. -/
def wresClosing : Nat → WriteRes := fun _ => .closeSent

/-- C1 counterexample: a single clean browser-side close makes the browser
read loop alone invoke the engine's remove verb twice — once on detecting the
close (line 211) and once unconditionally after the loop (line 252).  There
is no single-fire guard anywhere in the session, so removal is not invoked
exactly once. -/
theorem remove_not_single_fire_cx :
    ((browserLoop sessionInfo1 wresAllOk [.closeErr]).1.calls.filter isRemoveCall).length = 2 :=
  rfl

theorem browserLoopGo_close (info : ContainerInfo) :
    ∀ (pre : List BrowserRead) (k : Nat) (acc : List EngineCall) (ws : List String),
      (∀ r ∈ pre, r ≠ BrowserRead.closeErr) →
      ∃ extra ws2,
        browserLoopGo info wresAllOk (pre ++ [.closeErr]) k acc ws =
          (⟨acc ++ extra ++ [.containerRemove info.userns info.containerid], ws2⟩, true) ∧
        extra.filter isRemoveCall = [] := by
  intro pre
  induction pre with
  | nil =>
    intro k acc ws _
    exact ⟨[], ws, by simp [browserLoopGo], rfl⟩
  | cons r rest ih =>
    intro k acc ws hpre
    have hr : r ≠ BrowserRead.closeErr := hpre r (List.mem_cons_self r rest)
    have hrest : ∀ x ∈ rest, x ≠ BrowserRead.closeErr :=
      fun x hx => hpre x (List.mem_cons_of_mem r hx)
    cases r with
    | closeErr => exact absurd rfl hr
    | readErr =>
      obtain ⟨extra, ws2, heq, hex⟩ := ih k acc ws hrest
      exact ⟨extra, ws2, by simpa [browserLoopGo] using heq, hex⟩
    | frame m =>
      by_cases hstdin : m.msgType = "stdin"
      · by_cases hdata : m.data = ""
        · obtain ⟨extra, ws2, heq, hex⟩ := ih k acc ws hrest
          exact ⟨extra, ws2, by simpa [browserLoopGo, hstdin, hdata] using heq, hex⟩
        · obtain ⟨extra, ws2, heq, hex⟩ := ih (k + 1) acc (ws ++ [m.data]) hrest
          exact ⟨extra, ws2,
            by simpa [browserLoopGo, hstdin, hdata, wresAllOk] using heq, hex⟩
      · by_cases hresize : m.msgType = "resize"
        · obtain ⟨extra, ws2, heq, hex⟩ :=
            ih k (acc ++ [.containerResize false info.containerid m.height m.width]) ws hrest
          refine ⟨.containerResize false info.containerid m.height m.width :: extra, ws2, ?_, ?_⟩
          · simpa [browserLoopGo, hstdin, hresize, List.append_assoc] using heq
          · simpa [isRemoveCall] using hex
        · obtain ⟨extra, ws2, heq, hex⟩ := ih k acc ws hrest
          exact ⟨extra, ws2, by simpa [browserLoopGo, hstdin, hresize] using heq, hex⟩

/-- C1 (amended): there is no single-fire guard around removal.  When the
browser read loop detects a clean browser close after any prefix of
non-terminating reads (with the container channel accepting writes), that
loop alone invokes the engine's remove verb exactly twice — on detecting the
close, and again unconditionally after the loop exits; concurrent detection
by the other pump would add further invocations.  Later removal attempts
fail inside the engine and are only logged. -/
theorem remove_double_fire_on_close (info : ContainerInfo) (pre : List BrowserRead)
    (hpre : ∀ r ∈ pre, r ≠ BrowserRead.closeErr) :
    ((browserLoop info wresAllOk (pre ++ [.closeErr])).1.calls.filter isRemoveCall).length = 2 := by
  obtain ⟨extra, ws2, heq, hex⟩ := browserLoopGo_close info pre 0 [] [] hpre
  unfold browserLoop
  rw [heq]
  simp [List.filter_append, hex, isRemoveCall]

/-- C1 witness: the double-fire theorem applied to the empty prefix and the
concrete default-profile session. -/
theorem remove_double_fire_on_close_witness :
    ((browserLoop sessionInfo1 wresAllOk ([] ++ [.closeErr])).1.calls.filter isRemoveCall).length = 2 :=
  remove_double_fire_on_close sessionInfo1 [] (by simp)

/-- C7: on a user-namespaced session (`userns = true`, whose chosen endpoint
is the namespaced daemon), a resize frame with height 40 and width 120
produces exactly one engine resize call carrying exactly those values
against the session's container id and no write to the container data
channel — but the call is tagged `userns = false`: `profilesHandler` line
240 calls `h.dcli.ContainerResize` directly instead of
`h.client(ctrInfo.userns)` used by every other engine call, so the resize is
issued on the standard endpoint, not the session's chosen one. -/
theorem resize_wrong_endpoint_for_userns :
    sessionInfoUserns.userns = true ∧
    (browserLoop sessionInfoUserns wresAllOk
        [.frame { msgType := "resize", data := "", height := 40, width := 120 },
         .closeErr]).1.calls.filter isResizeCall =
      [.containerResize false "cid-2" 40 120] ∧
    (browserLoop sessionInfoUserns wresAllOk
        [.frame { msgType := "resize", data := "", height := 40, width := 120 },
         .closeErr]).1.ctrWrites = [] :=
  ⟨rfl, rfl, rfl⟩

/-- C9: when every container-channel write fails with `ErrCloseSent`, a
session whose browser sends two non-empty stdin frames and then closes still
attempts the second forward: after the first failed write (which triggers
removal), the `break` only exits the `switch`, so the read loop reads and
forwards the next frame instead of ending — and removal is invoked again on
the second failure, on the close, and after the loop (four times in all).
The claim says the pump ends after the first such failure with no further
reads or forwards. -/
theorem stdin_write_failure_loop_continues :
    (browserLoop sessionInfo1 wresClosing
        [.frame { msgType := "stdin", data := "ls" },
         .frame { msgType := "stdin", data := "pwd" }, .closeErr]).1.ctrWrites =
      ["ls", "pwd"] ∧
    ((browserLoop sessionInfo1 wresClosing
        [.frame { msgType := "stdin", data := "ls" },
         .frame { msgType := "stdin", data := "pwd" }, .closeErr]).1.calls.filter
        isRemoveCall).length = 4 :=
  ⟨rfl, rfl⟩

end Contained
